import Mathlib

/-!
Shallow embedding of the Aanderaa sensor reader core
(`src/aanderaa_sensor_reader_custom.py` and the derived-quantity engine of
`src/aanderaa_reader_gui.py`).

Strings on the wire are ASCII (the serial bytes are decoded with
`decode("ascii", errors="ignore")`), so Python's `str.upper` / `str.strip` /
`\d` are modelled with their ASCII meanings.  Machine floats are modelled by
exact rationals (`ℚ`); the transcendental primitives (`np.sqrt`, `np.log`,
`np.exp`) are taken as explicit function parameters, so every theorem below
holds for all interpretations of these primitives.  `np.isfinite` guards are
vacuously true in the exact-rational model and are noted where they occur.
-/

/-! ### Python-style string helpers -/

/-- Python `c.isdigit()` restricted to ASCII (the regex `\d` on ASCII text). -/
def isAsciiDigit (c : Char) : Bool := '0' ≤ c ∧ c ≤ '9'

/-- Python `str.upper()` on ASCII text: uppercase every character. -/
def strUpper (s : String) : String := String.mk (s.data.map Char.toUpper)

/-- `pat` is a prefix of character list `l` (Python `startswith` on lists). -/
def startsWithChars : List Char → List Char → Bool
  | _, [] => true
  | [], _ :: _ => false
  | c :: cs, p :: ps => p = c && startsWithChars cs ps

/-- Python `s.startswith(pat)`. -/
def strStartsWith (s pat : String) : Bool := startsWithChars s.data pat.data

/-- Characters treated as whitespace by Python `str.strip()` (ASCII subset). -/
def isPyWhitespace (c : Char) : Bool :=
  c = ' ' ∨ c = '\t' ∨ c = '\n' ∨ c = '\r' ∨ c = '\x0b' ∨ c = '\x0c'

/-- Python `str.strip()` on a character list. -/
def pyStripChars (l : List Char) : List Char :=
  ((l.dropWhile isPyWhitespace).reverse.dropWhile isPyWhitespace).reverse

/-- Python `str.strip()`. -/
def pyStrip (s : String) : String := String.mk (pyStripChars s.data)

/-- Python `str.split(sep)` semantics for a single-character separator:
keeps empty segments, `split` of the empty list is `[[]]`. -/
def splitOnChar (sep : Char) : List Char → List (List Char)
  | [] => [[]]
  | c :: cs =>
    if c = sep then [] :: splitOnChar sep cs
    else
      match splitOnChar sep cs with
      | seg :: segs => (c :: seg) :: segs
      | [] => [[c]]

/-! ### `_infer_sensor_type` (aanderaa_sensor_reader_custom.py, lines 27-35) -/

/-- Embedding of `_infer_sensor_type(product)` (the local `p = product.upper()`
of the source is inlined as `strUpper product`). -/
def inferSensorType (product : String) : String :=
  if strStartsWith (strUpper product) "4117" ∨ strStartsWith (strUpper product) "5217" ∨
      strStartsWith (strUpper product) "5218" then
    "pressure"
  else if strStartsWith (strUpper product) "4330" ∨ strStartsWith (strUpper product) "4835" ∨
      strStartsWith (strUpper product) "4831" then
    "oxygen"
  else if strStartsWith (strUpper product) "5819" ∨ strStartsWith (strUpper product) "5990" then
    "conductivity"
  else
    "unknown"

/-! ### Frame extraction (`_extract_tab_frames`, lines 117-130) -/

/-- The ASCII control characters removed by `_strip_control_chars`
(regex `[\x00-\x08\x0b\x0c\x0e-\x1f]`): everything below `\x20` except
tab, LF and CR. -/
def isStrippedControl (c : Char) : Bool :=
  c.val ≤ 0x08 ∨ c.val = 0x0b ∨ c.val = 0x0c ∨ (0x0e ≤ c.val ∧ c.val ≤ 0x1f)

/-- Embedding of `_extract_tab_frames(raw)`: strip control chars, drop `!`,
unify CR into LF, split into lines, keep tab-containing lines, split each on
tab, strip fields, drop empty fields, drop lines with no surviving field. -/
def extractTabFrames (raw : String) : List (List String) :=
  if raw = "" then []
  else
    let text :=
      ((raw.data.filter (fun c => ¬ isStrippedControl c)).filter (· ≠ '!')).map
        (fun c => if c = '\r' then '\n' else c)
    (splitOnChar '\n' text).filterMap fun line =>
      if '\t' ∉ line then none
      else
        let fields :=
          (splitOnChar '\t' line).filterMap fun f =>
            let f' := pyStripChars f
            if f' = [] then none else some (String.mk f')
        if fields = [] then none else some fields

/-! ### Frame selection (`_pick_best_data_frame`, lines 132-152) -/

/-- First four characters are ASCII digits: regex `^\d{4}.*`. -/
def startsWith4Digits (s : String) : Bool :=
  (s.data.take 4).length = 4 ∧ (s.data.take 4).all isAsciiDigit

/-- First character is an ASCII digit: regex `^\d+`. -/
def startsWithDigit (s : String) : Bool :=
  match s.data with
  | [] => false
  | c :: _ => isAsciiDigit c

/-- One step of the `for fields in frames` loop in `_pick_best_data_frame`. -/
def pickStep (best : Option (List String)) (fields : List String) :
    Option (List String) :=
  if fields.length < 2 then best
  else if fields.getD 0 "" = "*" ∧ strUpper (fields.getD 1 "") = "ERROR" then best
  else if ¬ startsWith4Digits (fields.getD 0 "") then best
  else if ¬ startsWithDigit (fields.getD 1 "") ∧ fields.length < 3 then best
  else some fields

/-- Embedding of `_pick_best_data_frame(frames)`. -/
def pickBestDataFrame (frames : List (List String)) : Option (List String) :=
  frames.foldl pickStep none

/-- The validity predicate described by the specification: at least two
fields, not an explicit error frame, product field starts with four digits,
and the serial field starts with a digit or the frame has a third field. -/
def FrameValid (fields : List String) : Prop :=
  2 ≤ fields.length ∧
  ¬ (fields.getD 0 "" = "*" ∧ strUpper (fields.getD 1 "") = "ERROR") ∧
  startsWith4Digits (fields.getD 0 "") = true ∧
  (startsWithDigit (fields.getD 1 "") = true ∨ 3 ≤ fields.length)

instance (fields : List String) : Decidable (FrameValid fields) := by
  unfold FrameValid; infer_instance

theorem getLast?_cons_ne_nil (a : α) (l : List α) (h : l ≠ []) :
    (a :: l).getLast? = l.getLast? := by
  cases l with
  | nil => exact absurd rfl h
  | cons b bs => rfl

theorem pickStep_eq (best : Option (List String)) (fields : List String) :
    pickStep best fields = if FrameValid fields then some fields else best := by
  by_cases hv : FrameValid fields
  · rw [if_pos hv]
    obtain ⟨h1, h2, h3, h4⟩ := hv
    unfold pickStep
    rw [if_neg (by omega), if_neg h2, if_neg (not_not_intro h3),
      if_neg (fun hc => h4.elim (fun h => hc.1 h) (fun h => absurd hc.2 (by omega)))]
  · rw [if_neg hv]
    unfold pickStep
    split_ifs with g1 g2 g3 g4 <;> try rfl
    exact absurd ⟨by omega, g2, g3, by
      rcases Decidable.em (startsWithDigit (fields.getD 1 "") = true) with h | h
      · exact Or.inl h
      · rcases Decidable.not_and_iff_or_not.mp g4 with h' | h'
        · exact absurd h' (not_not_intro h)
        · exact Or.inr (by omega)⟩ hv

theorem foldl_pickStep (fs : List (List String)) :
    ∀ acc, fs.foldl pickStep acc =
      ((fs.filter fun f => decide (FrameValid f)).getLast?).elim acc some := by
  induction fs with
  | nil => intro acc; simp
  | cons f fs ih =>
    intro acc
    rw [List.foldl_cons, ih, pickStep_eq, List.filter_cons]
    by_cases hv : FrameValid f
    · rw [if_pos hv, if_pos (by simpa using decide_eq_true hv)]
      cases h : (fs.filter fun g => decide (FrameValid g)).getLast? with
      | none =>
        have he : (fs.filter fun g => decide (FrameValid g)) = [] := by
          simpa using h
        simp [he, h]
      | some x =>
        have hne : (fs.filter fun g => decide (FrameValid g)) ≠ [] := by
          intro hh; rw [hh] at h; simp at h
        rw [getLast?_cons_ne_nil _ _ hne, h]
        rfl
    · rw [if_neg hv, if_neg (by simpa using fun hc => hv (of_decide_eq_true hc))]

/-- C1: `_pick_best_data_frame` returns exactly the last valid frame of the
batch (valid per `FrameValid`: ≥2 fields, not an error frame, 4-digit-prefixed
product, digit-prefixed serial or a third field), and `none` when no frame is
valid. -/
theorem pickBestDataFrame_eq_last_valid (frames : List (List String)) :
    pickBestDataFrame frames =
      (frames.filter fun f => decide (FrameValid f)).getLast? := by
  unfold pickBestDataFrame
  rw [foldl_pickStep]
  cases h : (frames.filter fun f => decide (FrameValid f)).getLast? <;> simp

/-! ### Sensor-type inference: mutual exclusivity of the prefix table -/

theorem startsWithChars_eq (l : List Char) :
    ∀ p q : List Char, startsWithChars l p = true → startsWithChars l q = true →
      p.length = q.length → p = q := by
  induction l with
  | nil =>
    intro p q hp hq hlen
    cases p with
    | nil => cases q with
      | nil => rfl
      | cons _ _ => simp [startsWithChars] at hq
    | cons _ _ => simp [startsWithChars] at hp
  | cons c cs ih =>
    intro p q hp hq hlen
    cases p with
    | nil =>
      cases q with
      | nil => rfl
      | cons _ _ => simp at hlen
    | cons a as =>
      cases q with
      | nil => simp at hlen
      | cons b bs =>
        simp only [startsWithChars, Bool.and_eq_true, decide_eq_true_eq] at hp hq
        simp only [List.length_cons, Nat.add_right_cancel_iff] at hlen
        rw [hp.1, hq.1, ih as bs hp.2 hq.2 hlen]

/-- C7: `_infer_sensor_type` classifies exactly by the documented prefix
table — pressure for 4117/5217/5218, oxygen for 4330/4835/4831, conductivity
for 5819/5990, unknown otherwise — with the spec's four concrete examples. -/
theorem inferSensorType_table :
    (∀ p : String,
      (inferSensorType p = "pressure" ↔
        (strStartsWith (strUpper p) "4117" = true ∨
         strStartsWith (strUpper p) "5217" = true ∨
         strStartsWith (strUpper p) "5218" = true)) ∧
      (inferSensorType p = "oxygen" ↔
        (strStartsWith (strUpper p) "4330" = true ∨
         strStartsWith (strUpper p) "4835" = true ∨
         strStartsWith (strUpper p) "4831" = true)) ∧
      (inferSensorType p = "conductivity" ↔
        (strStartsWith (strUpper p) "5819" = true ∨
         strStartsWith (strUpper p) "5990" = true)) ∧
      (inferSensorType p = "unknown" ↔
        ¬ ((strStartsWith (strUpper p) "4117" = true ∨
            strStartsWith (strUpper p) "5217" = true ∨
            strStartsWith (strUpper p) "5218" = true) ∨
           (strStartsWith (strUpper p) "4330" = true ∨
            strStartsWith (strUpper p) "4835" = true ∨
            strStartsWith (strUpper p) "4831" = true) ∨
           (strStartsWith (strUpper p) "5819" = true ∨
            strStartsWith (strUpper p) "5990" = true)))) ∧
    inferSensorType "4117X" = "pressure" ∧
    inferSensorType "4330Y" = "oxygen" ∧
    inferSensorType "5819Z" = "conductivity" ∧
    inferSensorType "9999" = "unknown" := by
  refine ⟨fun p => ?_, by decide, by decide, by decide, by decide⟩
  have excl : ∀ a b : String, a.data.length = b.data.length → a.data ≠ b.data →
      strStartsWith (strUpper p) a = true → strStartsWith (strUpper p) b = true →
      False := by
    intro a b hlen hne ha hb
    exact hne (startsWithChars_eq (strUpper p).data a.data b.data ha hb hlen)
  unfold inferSensorType
  split_ifs with h1 h2 h3
  · refine ⟨by simp [h1], ?_, ?_, ?_⟩
    · constructor
      · intro h; exact absurd h (by decide)
      · intro h2
        rcases h1 with h | h | h <;> rcases h2 with h' | h' | h' <;>
          exact absurd (excl _ _ (by decide) (by decide) h h') (by simp)
    · constructor
      · intro h; exact absurd h (by decide)
      · intro h3
        rcases h1 with h | h | h <;> rcases h3 with h' | h' <;>
          exact absurd (excl _ _ (by decide) (by decide) h h') (by simp)
    · constructor
      · intro h; exact absurd h (by decide)
      · intro h; exact absurd (Or.inl h1) h
  · refine ⟨?_, by simp [h2], ?_, ?_⟩
    · constructor
      · intro h; exact absurd h (by decide)
      · intro h; exact absurd h h1
    · constructor
      · intro h; exact absurd h (by decide)
      · intro h3
        rcases h2 with h | h | h <;> rcases h3 with h' | h' <;>
          exact absurd (excl _ _ (by decide) (by decide) h h') (by simp)
    · constructor
      · intro h; exact absurd h (by decide)
      · intro h; exact absurd (Or.inr (Or.inl h2)) h
  · refine ⟨?_, ?_, by simp [h3], ?_⟩
    · constructor
      · intro h; exact absurd h (by decide)
      · intro h; exact absurd h h1
    · constructor
      · intro h; exact absurd h (by decide)
      · intro h; exact absurd h h2
    · constructor
      · intro h; exact absurd h (by decide)
      · intro h; exact absurd (Or.inr (Or.inr h3)) h
  · refine ⟨?_, ?_, ?_, by simp [h1, h2, h3]⟩
    · constructor
      · intro h; exact absurd h (by decide)
      · intro h; exact absurd h h1
    · constructor
      · intro h; exact absurd h (by decide)
      · intro h; exact absurd h h2
    · constructor
      · intro h; exact absurd h (by decide)
      · intro h; exact absurd h h3

/-! ### Decimal rendering of an index: the Python f-string `f"Value{i}"` -/

/-- One decimal digit character. -/
def digitChar10 (k : Nat) : Char :=
  match k with
  | 0 => '0' | 1 => '1' | 2 => '2' | 3 => '3' | 4 => '4'
  | 5 => '5' | 6 => '6' | 7 => '7' | 8 => '8' | _ => '9'

/-- Decimal digits of `n`, most significant first. -/
def decDigits (n : Nat) : List Char :=
  if _h : n < 10 then [digitChar10 n]
  else decDigits (n / 10) ++ [digitChar10 (n % 10)]
decreasing_by exact Nat.div_lt_self (by omega) (by omega)

/-- Decimal rendering of a natural number (model of Python `f"{i}"`). -/
def natToDec (n : Nat) : String := String.mk (decDigits n)

/-- The dictionary key `f"Value{i}"`. -/
def valueKey (i : Nat) : String := "Value" ++ natToDec i

theorem digitChar10_inj (a b : Nat) (ha : a < 10) (hb : b < 10)
    (h : digitChar10 a = digitChar10 b) : a = b := by
  interval_cases a <;> interval_cases b <;> simp_all [digitChar10]

theorem decDigits_ne_nil (n : Nat) : decDigits n ≠ [] := by
  unfold decDigits
  split_ifs <;> simp

theorem decDigits_lt (n : Nat) (h : n < 10) : decDigits n = [digitChar10 n] := by
  rw [decDigits]
  exact dif_pos h

theorem decDigits_ge (n : Nat) (h : 10 ≤ n) :
    decDigits n = decDigits (n / 10) ++ [digitChar10 (n % 10)] := by
  rw [decDigits]
  exact dif_neg (by omega)

theorem decDigits_inj (n : Nat) : ∀ m, decDigits n = decDigits m → n = m := by
  induction n using Nat.strong_induction_on with
  | _ n ih =>
    intro m h
    by_cases hn : n < 10 <;> by_cases hm : m < 10
    · rw [decDigits_lt n hn, decDigits_lt m hm] at h
      exact digitChar10_inj n m hn hm (by simpa using h)
    · rw [decDigits_lt n hn, decDigits_ge m (by omega)] at h
      have hr := congrArg List.reverse h
      simp only [List.reverse_append, List.reverse_cons, List.reverse_nil,
        List.nil_append, List.cons_append, List.reverse_singleton] at hr
      have : (decDigits (m / 10)).reverse = [] := by
        have := congrArg List.tail hr
        simpa using this.symm
      exact absurd (by simpa using this) (decDigits_ne_nil (m / 10))
    · rw [decDigits_ge n (by omega), decDigits_lt m hm] at h
      have hr := congrArg List.reverse h
      simp only [List.reverse_append, List.reverse_cons, List.reverse_nil,
        List.nil_append, List.cons_append, List.reverse_singleton] at hr
      have : (decDigits (n / 10)).reverse = [] := by
        have := congrArg List.tail hr
        simpa using this
      exact absurd (by simpa using this) (decDigits_ne_nil (n / 10))
    · rw [decDigits_ge n (by omega), decDigits_ge m (by omega)] at h
      have hr := congrArg List.reverse h
      simp only [List.reverse_append, List.reverse_cons, List.reverse_nil,
        List.nil_append, List.cons_append] at hr
      have hhead : digitChar10 (n % 10) = digitChar10 (m % 10) := by
        have := congrArg List.head? hr
        simpa using this
      have htail : (decDigits (n / 10)).reverse = (decDigits (m / 10)).reverse := by
        have := congrArg List.tail hr
        simpa using this
      have hd : n / 10 = m / 10 :=
        ih (n / 10) (Nat.div_lt_self (by omega) (by omega)) (m / 10)
          (List.reverse_injective htail)
      have hm10 : n % 10 = m % 10 :=
        digitChar10_inj _ _ (Nat.mod_lt _ (by omega)) (Nat.mod_lt _ (by omega)) hhead
      omega

theorem natToDec_inj (n m : Nat) (h : natToDec n = natToDec m) : n = m := by
  have : decDigits n = decDigits m := congrArg String.data h
  exact decDigits_inj n m this

theorem valueKey_inj (n m : Nat) (h : valueKey n = valueKey m) : n = m := by
  have hd := congrArg String.data h
  simp only [valueKey, String.data_append] at hd
  exact natToDec_inj n m (String.ext (List.append_cancel_left hd))

/-! ### Python dict model (insertion-ordered, string keys) -/

/-- Python dict assignment `m[k] = v`: overwrite in place if the key exists,
otherwise append at the end (insertion order preserved). -/
def dSet {α : Type} : List (String × α) → String → α → List (String × α)
  | [], k, v => [(k, v)]
  | (k', v') :: rest, k, v =>
    if k' = k then (k, v) :: rest else (k', v') :: dSet rest k v

/-- Python dict lookup `m.get(k)`: the value bound to `k`, if any. -/
def dGet? {α : Type} : List (String × α) → String → Option α
  | [], _ => none
  | (k', v') :: rest, k => if k' = k then some v' else dGet? rest k

theorem dGet?_dSet {α : Type} (m : List (String × α)) (k k' : String) (v : α) :
    dGet? (dSet m k' v) k = if k' = k then some v else dGet? m k := by
  induction m with
  | nil => simp [dSet, dGet?]
  | cons p rest ih =>
    obtain ⟨pk, pv⟩ := p
    by_cases h1 : pk = k'
    · subst h1
      by_cases h2 : pk = k
      · subst h2
        simp [dSet, dGet?]
      · simp [dSet, dGet?, h2]
    · by_cases h2 : pk = k
      · subst h2
        rw [dSet, if_neg h1]
        rw [dGet?, if_pos rfl, dGet?, if_pos rfl]
        rw [if_neg (fun hc => h1 hc.symm)]
      · rw [dSet, if_neg h1, dGet?, if_neg h2, dGet?, if_neg h2, ih]

theorem dGet?_dSet_self {α : Type} (m : List (String × α)) (k : String) (v : α) :
    dGet? (dSet m k v) k = some v := by
  rw [dGet?_dSet, if_pos rfl]

theorem dGet?_dSet_ne {α : Type} (m : List (String × α)) (k k' : String) (v : α)
    (h : k' ≠ k) : dGet? (dSet m k' v) k = dGet? m k := by
  rw [dGet?_dSet, if_neg h]

/-! ### The sensor handle and `parse_tab_frame` (lines 40-98) -/

/-- The mutable attributes of `AanderaaSensorCustom` that `parse_tab_frame`
touches (the wall-clock field `last_measurement_time` is outside the model). -/
structure SensorState where
  name : String
  sensorType : String
  productNumber : Option String
  serialNumber : Option String
  protocolMode : String
  lastMeasurement : List (String × String)
deriving DecidableEq, Repr

/-- The `for i, v in enumerate(values, start=1)` loop of `parse_tab_frame`:
insert `Value{start}`, `Value{start+1}`, ... bound to the raw columns. -/
def insertValues (m : List (String × String)) : List String → Nat → List (String × String)
  | [], _ => m
  | v :: vs, start => insertValues (dSet m (valueKey start) v) vs (start + 1)

/-- Embedding of `AanderaaSensorCustom.parse_tab_frame(data_frame)`:
returns the updated handle state together with the measurement dict. -/
def parseTabFrame (st : SensorState) (dataFrame : List String) :
    SensorState × List (String × String) :=
  if dataFrame.length < 2 then (st, [])
  else
    let product := dataFrame.getD 0 ""
    let serialNo := dataFrame.getD 1 ""
    let values := dataFrame.drop 2
    let inferred := inferSensorType product
    let st1 := if inferred ≠ "unknown" ∧ st.sensorType ≠ inferred then
      { st with sensorType := inferred } else st
    let st2 := { st1 with
      productNumber := some product
      serialNumber := some serialNo
      name := "Sensor " ++ product ++ " SN " ++ serialNo
      protocolMode := "tab" }
    let m0 := dSet (dSet [] "ProductNumber" product) "SerialNumber" serialNo
    let m1 := insertValues m0 values 1
    let m2 :=
      if st2.sensorType = "oxygen" ∧ 3 ≤ values.length then
        let ma := dSet m1 "O2Concentration" ((dGet? m1 "Value1").getD "")
        let mb := dSet ma "O2Saturation" ((dGet? ma "Value2").getD "")
        dSet mb "Temperature" ((dGet? mb "Value3").getD "")
      else if st2.sensorType = "conductivity" then
        let ma :=
          if 2 ≤ values.length then
            let mx := dSet m1 "Conductivity" ((dGet? m1 "Value1").getD "")
            dSet mx "Temperature" ((dGet? mx "Value2").getD "")
          else m1
        if 3 ≤ values.length then
          let my := dSet ma "Salinity" ((dGet? ma "Value2").getD "")
          dSet my "Temperature" ((dGet? my "Value3").getD "")
        else ma
      else if st2.sensorType = "pressure" ∧ 2 ≤ values.length then
        let ma := dSet m1 "Pressure" ((dGet? m1 "Value1").getD "")
        dSet ma "Temperature" ((dGet? ma "Value2").getD "")
      else m1
    ({ st2 with lastMeasurement := m2 }, m2)

theorem valueKey_data (n : Nat) :
    (valueKey n).data = 'V' :: 'a' :: 'l' :: 'u' :: 'e' :: decDigits n := by
  rw [valueKey, natToDec, String.data_append]
  rfl

theorem valueKey_head (n : Nat) : (valueKey n).data.head? = some 'V' := by
  rw [valueKey_data]
  rfl

/-- Setting any key whose first character is not `V` never disturbs a
`Value{i}` binding. -/
theorem dGet?_dSet_valueKey (m : List (String × String)) (k' v : String) (n : Nat)
    (h : k'.data.head? ≠ some 'V') :
    dGet? (dSet m k' v) (valueKey n) = dGet? m (valueKey n) :=
  dGet?_dSet_ne _ _ _ _ (fun hc => h (by rw [hc, valueKey_head]))

theorem dGet?_insertValues (values : List String) :
    ∀ (m : List (String × String)) (start k : Nat),
      dGet? (insertValues m values start) (valueKey k) =
        if start ≤ k ∧ k < start + values.length then values.get? (k - start)
        else dGet? m (valueKey k) := by
  induction values with
  | nil =>
    intro m start k
    rw [insertValues, if_neg (by rintro ⟨h1, h2⟩; simp at h2; omega)]
  | cons v vs ih =>
    intro m start k
    rw [insertValues, ih]
    by_cases hk : k = start
    · subst hk
      rw [if_neg (by omega), if_pos (by simp), dGet?_dSet_self]
      simp
    · by_cases hr : start + 1 ≤ k ∧ k < start + 1 + vs.length
      · rw [if_pos hr, if_pos (by constructor <;> [omega; (simp; omega)])]
        have hks : k - start = (k - (start + 1)) + 1 := by omega
        rw [hks]
        rfl
      · rw [if_neg hr, if_neg (by
          rintro ⟨ha, hb⟩
          simp at hb
          exact hr ⟨by omega, by omega⟩)]
        exact dGet?_dSet_ne _ _ _ _ (fun hc => hk (valueKey_inj _ _ hc).symm)

theorem dGet?_dSet_O2Concentration (m : List (String × String)) (v : String) (n : Nat) :
    dGet? (dSet m "O2Concentration" v) (valueKey n) = dGet? m (valueKey n) :=
  dGet?_dSet_valueKey _ _ _ _ (by decide)

theorem dGet?_dSet_O2Saturation (m : List (String × String)) (v : String) (n : Nat) :
    dGet? (dSet m "O2Saturation" v) (valueKey n) = dGet? m (valueKey n) :=
  dGet?_dSet_valueKey _ _ _ _ (by decide)

theorem dGet?_dSet_Temperature (m : List (String × String)) (v : String) (n : Nat) :
    dGet? (dSet m "Temperature" v) (valueKey n) = dGet? m (valueKey n) :=
  dGet?_dSet_valueKey _ _ _ _ (by decide)

theorem dGet?_dSet_Conductivity (m : List (String × String)) (v : String) (n : Nat) :
    dGet? (dSet m "Conductivity" v) (valueKey n) = dGet? m (valueKey n) :=
  dGet?_dSet_valueKey _ _ _ _ (by decide)

theorem dGet?_dSet_Salinity (m : List (String × String)) (v : String) (n : Nat) :
    dGet? (dSet m "Salinity" v) (valueKey n) = dGet? m (valueKey n) :=
  dGet?_dSet_valueKey _ _ _ _ (by decide)

theorem dGet?_dSet_Pressure (m : List (String × String)) (v : String) (n : Nat) :
    dGet? (dSet m "Pressure" v) (valueKey n) = dGet? m (valueKey n) :=
  dGet?_dSet_valueKey _ _ _ _ (by decide)

/-- C2: `parse_tab_frame` binds `Value{i+1}` to the `(i+1)`-th ordinal value
field verbatim, for every frame with at least two fields, every index, every
incoming handle state (hence every sensor type), with or without the named
overlay. -/
theorem parseTabFrame_value_fields (st : SensorState) (frame : List String) (i : Nat)
    (h2 : 2 ≤ frame.length) (hi : i < frame.length - 2) :
    dGet? (parseTabFrame st frame).2 (valueKey (i + 1)) = (frame.drop 2).get? i := by
  have hv : i < (frame.drop 2).length := by simp; omega
  simp only [parseTabFrame]
  rw [if_neg (by omega)]
  have hbase :
      dGet? (insertValues (dSet (dSet [] "ProductNumber" (frame.getD 0 ""))
          "SerialNumber" (frame.getD 1 "")) (frame.drop 2) 1) (valueKey (i + 1)) =
        (frame.drop 2).get? i := by
    rw [dGet?_insertValues, if_pos ⟨by omega, by omega⟩]
    simp
  split_ifs <;>
    simp only [dGet?_dSet_O2Concentration, dGet?_dSet_O2Saturation,
      dGet?_dSet_Temperature, dGet?_dSet_Conductivity, dGet?_dSet_Salinity,
      dGet?_dSet_Pressure, hbase]

theorem parseTabFrame_value_fields_witness :
    dGet? (parseTabFrame ⟨"Unknown", "", none, none, "unknown", []⟩
        ["4330", "55", "210.5", "98.2", "18.3"]).2 (valueKey 1) =
      ((["4330", "55", "210.5", "98.2", "18.3"] : List String).drop 2).get? 0 :=
  parseTabFrame_value_fields ⟨"Unknown", "", none, none, "unknown", []⟩
    ["4330", "55", "210.5", "98.2", "18.3"] 0 (by decide) (by decide)

/-- C9: `parse_tab_frame` on a frame with fewer than two fields returns the
empty mapping and leaves the handle state untouched.  The embedding is a
total Lean function, mirroring that the Python code raises no exception on
such input. -/
theorem parseTabFrame_short_frame (st : SensorState) (frame : List String)
    (h : frame.length < 2) : parseTabFrame st frame = (st, []) := by
  unfold parseTabFrame
  rw [if_pos h]

theorem parseTabFrame_short_frame_witness :
    parseTabFrame ⟨"Unknown", "", none, none, "unknown", []⟩ ["4330"] =
      (⟨"Unknown", "", none, none, "unknown", []⟩, []) :=
  parseTabFrame_short_frame ⟨"Unknown", "", none, none, "unknown", []⟩ ["4330"]
    (by decide)

/-! ### The connect sequence (`AanderaaSensorCustom.connect`, lines 154-236) -/

/-- The terminal states of one run of the connect sequence. -/
inductive ConnectOutcome where
  | identified (dataFrame : List String) : ConnectOutcome
  | softConnected : ConnectOutcome
  | failed : ConnectOutcome
deriving DecidableEq, Repr

/-- Embedding of the decision logic of `connect()` as a function of the three
observed read windows: the wake response (read after the wake sequence), the
first passive probe, and the second probe (read only when the first probe
yielded no frame — which is exactly when its frames influence the result).
`identified` marks the `protocol_mode = "tab"`, `is_connected = True` exit;
`softConnected` the `protocol_mode = "unknown"`, `is_connected = True` exit;
`failed` the `close(); return False` exit. -/
def connectOutcome (wakeResp probe1 probe2 : String) : ConnectOutcome :=
  let d1 := pickBestDataFrame (extractTabFrames probe1)
  let d := match d1 with
    | some f => some f
    | none => pickBestDataFrame (extractTabFrames probe2)
  match d with
  | some f => ConnectOutcome.identified f
  | none => if wakeResp ≠ "" then ConnectOutcome.softConnected else ConnectOutcome.failed

/-- C6 counterexample: bytes are observed during the probing window
(`probe1 = "%"` is non-empty) and no valid frame is selected anywhere, yet
the sequence ends in `failed`, not `softConnected` — the code soft-connects
only on a non-empty wake response. -/
theorem connectOutcome_probe_bytes_failed :
    ("%" : String) ≠ "" ∧
    pickBestDataFrame (extractTabFrames "") = none ∧
    pickBestDataFrame (extractTabFrames "%") = none ∧
    connectOutcome "" "%" "" ≠ ConnectOutcome.softConnected ∧
    connectOutcome "" "%" "" = ConnectOutcome.failed := by decide

/-- C6 (amended): when no valid data frame is selected from either probe
window, the sequence ends in `softConnected` exactly when the waking window
observed bytes (non-empty wake response), and in `failed` when it observed
none — in particular whenever no bytes at all were observed. -/
theorem connectOutcome_soft_iff_wake_bytes (wakeResp probe1 probe2 : String)
    (h1 : pickBestDataFrame (extractTabFrames probe1) = none)
    (h2 : pickBestDataFrame (extractTabFrames probe2) = none) :
    (wakeResp ≠ "" →
      connectOutcome wakeResp probe1 probe2 = ConnectOutcome.softConnected) ∧
    (wakeResp = "" →
      connectOutcome wakeResp probe1 probe2 = ConnectOutcome.failed) := by
  simp only [connectOutcome, h1, h2]
  constructor
  · intro h
    rw [if_pos h]
  · intro h
    rw [if_neg (not_not_intro h)]

theorem connectOutcome_soft_iff_wake_bytes_witness :
    connectOutcome ";" "" "" = ConnectOutcome.softConnected :=
  (connectOutcome_soft_iff_wake_bytes ";" "" "" (by decide) (by decide)).1 (by decide)

/-! ### One iteration of `_reader_loop` (lines 287-385) -/

/-- The noise/echo characters of the reader loop's buffer check
(the Python string literal `"%;!*\r\n\t \x11\x13"`). -/
def noiseChars : List Char :=
  ['%', ';', '!', '*', '\r', '\n', '\t', ' ', '\x11', '\x13']

/-- One pass of the `for line in lines[:-1]` body: extract, select, decode,
and append an event when the decoded mapping is non-empty.  The handle state
is threaded because `parse_tab_frame` mutates the sensor. -/
def readerLineStep (acc : SensorState × List (List (String × String)))
    (line : List Char) : SensorState × List (List (String × String)) :=
  if pyStripChars line = [] then acc
  else
    match pickBestDataFrame (extractTabFrames (String.mk line)) with
    | none => acc
    | some f =>
      let r := parseTabFrame acc.1 f
      if r.2 = [] then (r.1, acc.2) else (r.1, acc.2 ++ [r.2])

/-- Embedding of one iteration of `_reader_loop`'s `while` body, as a function
of the accumulated buffer and the freshly read chunk.  Returns the handle
state, the new buffer, and the measurement dicts of the events emitted this
iteration.  The wall-clock nudge timers (`last_frame`/`last_nudge`/`last_do`)
only trigger serial writes, never events or buffer changes, and are outside
the model. -/
def readerIter (st : SensorState) (buffer chunk : String) :
    SensorState × String × List (List (String × String)) :=
  let buf0 := buffer ++ chunk
  let buf :=
    if buf0 ≠ "" ∧ (∀ c ∈ buf0.data, c ∈ noiseChars) ∧ '\t' ∉ buf0.data then ""
    else buf0
  if '\n' ∉ buf.data ∧ '\r' ∉ buf.data then
    if '\t' ∈ buf.data ∧ 20 < buf.length then
      match pickBestDataFrame (extractTabFrames buf) with
      | some f =>
        let r := parseTabFrame st f
        if r.2 ≠ [] then (r.1, "", [r.2]) else (r.1, buf, [])
      | none => (st, buf, [])
    else (st, buf, [])
  else
    let lines := splitOnChar '\n' (buf.data.map (fun c => if c = '\r' then '\n' else c))
    let r := lines.dropLast.foldl readerLineStep (st, [])
    (r.1, String.mk (lines.getLast?.getD []), r.2)

/-- C8: when the accumulated buffer is non-empty, consists only of the known
noise characters, and contains no tab, the iteration resets the buffer to the
empty string and emits no event (and the handle state is untouched). -/
theorem readerIter_noise_collapse (st : SensorState) (buffer chunk : String)
    (hne : buffer ++ chunk ≠ "")
    (hnoise : ∀ c ∈ (buffer ++ chunk).data, c ∈ noiseChars)
    (htab : '\t' ∉ (buffer ++ chunk).data) :
    readerIter st buffer chunk = (st, "", []) := by
  simp only [readerIter]
  have hbuf :
      (if buffer ++ chunk ≠ "" ∧ (∀ c ∈ (buffer ++ chunk).data, c ∈ noiseChars) ∧
          '\t' ∉ (buffer ++ chunk).data then "" else buffer ++ chunk) = "" :=
    if_pos ⟨hne, hnoise, htab⟩
  rw [hbuf, if_pos (by decide), if_neg (by decide)]

theorem readerIter_noise_collapse_witness :
    readerIter ⟨"Unknown", "", none, none, "unknown", []⟩ "%;!* \r\n\x11\x13" "" =
      (⟨"Unknown", "", none, none, "unknown", []⟩, "", []) :=
  readerIter_noise_collapse ⟨"Unknown", "", none, none, "unknown", []⟩
    "%;!* \r\n\x11\x13" "" (by decide) (by decide) (by decide)

/-! ### `_to_float` (aanderaa_reader_gui.py, lines 31, 173-183)

Python floats are modelled by exact rationals.  `_to_float` searches its
input for the leftmost match of the regex
`[-+]?\d*\.?\d+(?:[eE][-+]?\d+)?` and converts the matched text. -/

/-- Numeric value of a non-empty ASCII digit string. -/
def decValue (l : List Char) : Nat :=
  l.foldl (fun a c => a * 10 + (c.toNat - 48)) 0

/-- Match `\d*\.?\d+` at the head of `l` with the regex engine's greedy
backtracking: returns the integer digits, the optional fraction digits, and
the rest of the input.  (When the digits are followed by a bare `.` with no
digit after it, the dot is not consumed.) -/
def matchCore (l : List Char) :
    Option (List Char × Option (List Char) × List Char) :=
  let ds1 := l.takeWhile isAsciiDigit
  let r1 := l.dropWhile isAsciiDigit
  match r1 with
  | '.' :: r2 =>
    let ds2 := r2.takeWhile isAsciiDigit
    if ds2 ≠ [] then some (ds1, some ds2, r2.dropWhile isAsciiDigit)
    else if ds1 ≠ [] then some (ds1, none, r1)
    else none
  | _ => if ds1 ≠ [] then some (ds1, none, r1) else none

/-- Match the optional exponent group `(?:[eE][-+]?\d+)?` at the head of `l`:
the exponent value, or 0 when the group does not match. -/
def matchExp (l : List Char) : Int :=
  match l with
  | c :: r =>
    if c = 'e' ∨ c = 'E' then
      match r with
      | '+' :: r2 =>
        let ds := r2.takeWhile isAsciiDigit
        if ds ≠ [] then (decValue ds : Int) else 0
      | '-' :: r2 =>
        let ds := r2.takeWhile isAsciiDigit
        if ds ≠ [] then -(decValue ds : Int) else 0
      | _ =>
        let ds := r.takeWhile isAsciiDigit
        if ds ≠ [] then (decValue ds : Int) else 0
    else 0
  | [] => 0

/-- Try the whole float regex anchored at the head of `l` (`[-+]?` sign, the
core, the optional exponent), returning the value of the matched text. -/
def matchFloatAt (l : List Char) : Option ℚ :=
  let sr : ℚ × List Char :=
    match l with
    | '+' :: r => (1, r)
    | '-' :: r => (-1, r)
    | _ => (1, l)
  match matchCore sr.2 with
  | none => none
  | some (ds1, fr, rest) =>
    let base : ℚ := (decValue ds1 : ℚ) +
      (match fr with
       | some ds2 => (decValue ds2 : ℚ) / 10 ^ ds2.length
       | none => 0)
    some (sr.1 * base * (10 : ℚ) ^ matchExp rest)

/-- `re.search`: try the pattern at each position, leftmost match wins. -/
def searchFloat : List Char → Option ℚ
  | [] => none
  | c :: rest =>
    match matchFloatAt (c :: rest) with
    | some v => some v
    | none => searchFloat rest

/-- Embedding of `_to_float(value)` on a string value. -/
def toFloat? (s : String) : Option ℚ := searchFloat (pyStrip s).data

/-- Embedding of `_to_float(measurements.get(k))`: `dict.get` returns `None`
when the key is absent and `_to_float(None)` is `None`. -/
def toFloatOpt : Option String → Option ℚ
  | none => none
  | some s => toFloat? s

/-! ### Physical kernels (aanderaa_reader_gui.py, lines 47-170)

The transcendental primitives (`np.sqrt` in PSS-78, `np.log`/`np.exp` in
Weiss) are taken as function parameters `sq`, `logQ`, `expQ`. -/

/-- `_pressure_to_dbar`: 1 dbar = 10 kPa. -/
def pressureToDbar (p : ℚ) : ℚ := p / 10

/-- The conductivity quotient `R = C / 42.914` of `_pss78_salinity_...`. -/
def pss78R (C : ℚ) : ℚ := C / 42.914

/-- `rt35`: temperature function for Rt at S=35, P=0 (UNESCO 1983 / PSS-78). -/
def pss78rt35 (T : ℚ) : ℚ :=
  0.6766097 + 0.0200564 * T + 0.0001104259 * T ^ 2 +
    (-6.9698e-7) * T ^ 3 + 1.0031e-9 * T ^ 4

/-- `Rp`: best-effort pressure correction factor (the `d1..d4`/`e1..e3`
locals of the source are inlined); the `np.isfinite(P)` conjunct of the
source's condition is vacuous over `ℚ`. -/
def pss78Rp (T P R : ℚ) : ℚ :=
  if P ≠ 0 then
    1 + (P * (2.070e-5 + (-6.370e-10) * P + 3.989e-15 * P ^ 2)) /
      (1 + 0.03426 * T + 0.0004464 * T ^ 2 + (0.4215 + (-0.003107) * T) * R)
  else 1

/-- `Rt = R / (Rp * rt35)`. -/
def pss78Rt (C T P : ℚ) : ℚ :=
  pss78R C / (pss78Rp T P (pss78R C) * pss78rt35 T)

/-- Embedding of `_pss78_salinity_from_conductivity_ms_cm(C, T, P)`.  The
source guards `not np.isfinite(C) or C <= 0` (and likewise for `R` and `Rt`)
keep any non-positive or non-finite intermediate from reaching `np.sqrt`;
over `ℚ` the finiteness conjuncts are vacuous, and the final
`np.isfinite(S)` guard on the polynomial value is dropped for the same
reason. -/
def pss78 (sq : ℚ → ℚ) (C T P : ℚ) : Option ℚ :=
  if C ≤ 0 then none
  else if pss78R C ≤ 0 then none
  else if pss78Rt C T P ≤ 0 then none
  else
    let Rt := pss78Rt C T P
    let s := sq Rt
    let S0 := 0.0080 + (-0.1692) * s + 25.3851 * Rt + 14.0941 * Rt * s +
      (-7.0261) * Rt ^ 2 + 2.7081 * Rt ^ 2 * s
    let dT := (T - 15) / (1 + 0.0162 * (T - 15))
    some (S0 + dT * (0.0005 + (-0.0056) * s + (-0.0066) * Rt +
      (-0.0375) * Rt * s + 0.0636 * Rt ^ 2 + (-0.0144) * Rt ^ 2 * s))

/-- Embedding of `_o2_sol_umol_per_l_weiss1970(temp_c, sal_psu)`. -/
def weiss (logQ expQ : ℚ → ℚ) (tempC salPsu : ℚ) : ℚ :=
  let T := tempC + 273.15
  let Ts := T / 100
  let lnC := -173.4292 + 249.6339 * (100 / T) + 143.3483 * logQ Ts +
    (-21.8492) * Ts + salPsu * (-0.033096 + 0.014259 * Ts + (-0.0017000) * Ts ^ 2)
  expQ lnC * 44.6596

/-- Embedding of `_scale_o2_solubility_for_pressure(x, baro_kpa)`; the
`np.isfinite` conjunct is vacuous over `ℚ`. -/
def scaleO2 (o2sol : ℚ) (baro : Option ℚ) : ℚ :=
  match baro with
  | none => o2sol
  | some b => if b ≤ 0 then o2sol else o2sol * (b / 101.325)

/-! ### The cross-sensor context and `_drain_events` branches
(aanderaa_reader_gui.py, lines 1210-1353) -/

/-- Models of the Python fixed-point renderings `f"{x:.3f}"` / `f"{x:.2f}"`:
an injective rendering of the exact rational.  The claims below depend only
on which value is rendered, never on the digits of the rendering. -/
def fmt3 (q : ℚ) : String := reprStr q

/-- See `fmt3`. -/
def fmt2 (q : ℚ) : String := reprStr q

/-- The cross-sensor shared state read and written by `_drain_events`:
latest salinity, latest absolute pressure, the per-port sensor-identity and
pressure maps, and the persisted air-pressure baselines (timestamps are
outside the model). -/
structure CrossCtx where
  latestSalinity : Option ℚ
  latestPressure : Option ℚ
  pressureIdByPort : List (String × String)
  pressureKpaByPort : List (String × ℚ)
  airKpaBySensor : List (String × ℚ)

/-- Embedding of `_pressure_sensor_id(com_port, measurements)`. -/
def pressureSensorId (comPort : String) (m : List (String × String)) : String :=
  let product := pyStrip ((dGet? m "ProductNumber").getD "")
  let serialNo := pyStrip ((dGet? m "SerialNumber").getD "")
  if product ≠ "" ∧ serialNo ≠ "" then product ++ "_SN_" ++ serialNo
  else strUpper comPort

/-- Embedding of the conductivity branch of `_drain_events` (lines
1241-1269): salinity from the stream when present, else PSS-78 from
conductivity/temperature/best-known pressure; context update and event
annotations (plot-series appends and timestamps are outside the model). -/
def drainConductivity (sq : ℚ → ℚ) (ctx : CrossCtx) (m : List (String × String)) :
    CrossCtx × List (String × String) :=
  let cond := toFloatOpt (dGet? m "Conductivity")
  let tC := toFloatOpt (dGet? m "Temperature")
  let salStream := toFloatOpt (dGet? m "Salinity")
  let pDbar := match ctx.latestPressure with
    | some p => pressureToDbar p
    | none => 0
  let sal := match salStream with
    | some s => some s
    | none =>
      match cond, tC with
      | some c, some t => pss78 sq c t pDbar
      | _, _ => none
  let r1 := match sal with
    | some s =>
      let ma := dSet m "Derived_Salinity_psu" (fmt3 s)
      let mb := match cond with
        | some c => dSet ma "Conductivity" (fmt3 c ++ " mS/cm")
        | none => ma
      ({ ctx with latestSalinity := some s }, mb)
    | none => (ctx, m)
  let m2 := match tC with
    | some t => dSet r1.2 "Temperature" (fmt3 t ++ " °C")
    | none => r1.2
  (r1.1, m2)

/-- Embedding of the pressure branch of `_drain_events` (lines 1270-1301):
absolute kPa, dbar conversion, context update, and — when an air baseline is
stored for the sensor identity — gauge pressure and depth annotations. -/
def drainPressure (ctx : CrossCtx) (comPort : String) (m : List (String × String)) :
    CrossCtx × List (String × String) :=
  let r1 := match toFloatOpt (dGet? m "Pressure") with
    | none => (ctx, m)
    | some p =>
      let port := strUpper comPort
      let sensorId := pressureSensorId port m
      let ctx1 := { ctx with
        pressureIdByPort := dSet ctx.pressureIdByPort port sensorId
        pressureKpaByPort := dSet ctx.pressureKpaByPort port p
        latestPressure := some p }
      let ma := dSet m "Pressure" (fmt3 p ++ " kPa")
      let mb := dSet ma "Derived_Pressure_dbar" (fmt3 (pressureToDbar p) ++ " dbar")
      match dGet? ctx.airKpaBySensor sensorId with
      | some baseKpa =>
        let seaDbar := pressureToDbar (p - baseKpa)
        let mc := dSet mb "Derived_PressureAir_kPa" (fmt3 baseKpa ++ " kPa")
        let md := dSet mc "Derived_SeaPressure_dbar" (fmt3 seaDbar ++ " dbar")
        (ctx1, dSet md "Derived_Depth_m" (fmt3 seaDbar ++ " m"))
      | none => (ctx1, mb)
  let m2 := match toFloatOpt (dGet? r1.2 "Temperature") with
    | some t => dSet r1.2 "Temperature" (fmt3 t ++ " °C")
    | none => r1.2
  (r1.1, m2)

/-- Embedding of the oxygen branch of `_drain_events` (lines 1303-1353):
Weiss solubility with the context's salinity (0 when absent, flagged
assumed), optional barometric scaling, derived concentration/saturation,
and unit annotations.  The oxygen branch never writes the context.  The
source's `try/except` around the block is unreachable in the exact-rational
model (no floating-point error paths), so no exception path is modelled. -/
def drainOxygen (logQ expQ : ℚ → ℚ) (baro : Option ℚ) (ctx : CrossCtx)
    (m : List (String × String)) : List (String × String) :=
  let tempC := toFloatOpt (dGet? m "Temperature")
  let satPct := toFloatOpt (dGet? m "O2Saturation")
  let salPsu := ctx.latestSalinity
  let m5 := match tempC with
    | none => m
    | some t =>
      let salUsed := salPsu.getD 0
      let o2sol := scaleO2 (weiss logQ expQ t salUsed) baro
      let m1 := dSet m "Derived_O2Sol_umolL" (fmt2 o2sol)
      let m2 := dSet m1 "Derived_Salinity_psu" (fmt3 salUsed)
      let m3 := match salPsu with
        | none => dSet m2 "Derived_Salinity_assumed" "True"
        | some _ => m2
      let m4 := match baro with
        | some b => dSet m3 "Derived_Baro_kPa" (fmt2 b)
        | none => m3
      let m4s := match satPct with
        | some sat => dSet m4 "Derived_O2_umolL_from_sat" (fmt2 (sat / 100 * o2sol))
        | none => m4
      match toFloatOpt (dGet? m4s "O2Concentration") with
      | some conc =>
        if 0 < o2sol then
          dSet m4s "Derived_O2Sat_pct_from_conc" (fmt2 (100 * conc / o2sol))
        else m4s
      | none => m4s
  let m6 := match tempC with
    | some t => dSet m5 "Temperature" (fmt3 t ++ " °C")
    | none => m5
  let m7 := match toFloatOpt (dGet? m6 "O2Concentration") with
    | some c => dSet m6 "O2Concentration" (fmt2 c ++ " µmol/L")
    | none => m6
  match satPct with
  | some s => dSet m7 "O2Saturation" (fmt2 s ++ " %")
  | none => m7

/-- C3: for a conductivity event, a parsable streamed `Salinity` field is
used as the derived salinity unchanged (recorded in the context, annotated
as `Derived_Salinity_psu`) and the PSS-78 polynomial is not evaluated (the
result does not depend on the `sqrt` primitive at all); without a `Salinity`
field but with parsable `Conductivity` and `Temperature`, the recorded and
annotated salinity is exactly `pss78` at that conductivity, that temperature,
and the latest cross-sensor pressure in dbar (0 when none is known). -/
theorem drainConductivity_salinity_law (sq : ℚ → ℚ) (ctx : CrossCtx)
    (m : List (String × String)) :
    (∀ s, toFloatOpt (dGet? m "Salinity") = some s →
      (drainConductivity sq ctx m).1.latestSalinity = some s ∧
      dGet? (drainConductivity sq ctx m).2 "Derived_Salinity_psu" = some (fmt3 s) ∧
      ∀ sq', drainConductivity sq' ctx m = drainConductivity sq ctx m) ∧
    (toFloatOpt (dGet? m "Salinity") = none →
      ∀ c t, toFloatOpt (dGet? m "Conductivity") = some c →
        toFloatOpt (dGet? m "Temperature") = some t →
        ∀ s, pss78 sq c t (match ctx.latestPressure with
            | some p => pressureToDbar p
            | none => 0) = some s →
          (drainConductivity sq ctx m).1.latestSalinity = some s ∧
          dGet? (drainConductivity sq ctx m).2 "Derived_Salinity_psu" = some (fmt3 s)) := by
  constructor
  · intro s hs
    cases hc : toFloatOpt (dGet? m "Conductivity") <;>
      cases ht : toFloatOpt (dGet? m "Temperature") <;>
        refine ⟨?_, ?_, fun sq' => ?_⟩ <;>
          simp [drainConductivity, hs, hc, ht, dGet?_dSet]
  · intro hs c t hc ht s hp
    cases hlp : ctx.latestPressure with
    | none =>
      rw [hlp] at hp
      refine ⟨?_, ?_⟩ <;> simp [drainConductivity, hs, hc, ht, hlp, hp, dGet?_dSet]
    | some p =>
      rw [hlp] at hp
      refine ⟨?_, ?_⟩ <;> simp [drainConductivity, hs, hc, ht, hlp, hp, dGet?_dSet]

theorem drainConductivity_salinity_law_witness :
    (drainConductivity id ⟨none, none, [], [], []⟩
      [("Salinity", "35.0")]).1.latestSalinity =
        some ((toFloat? "35.0").get (by decide)) :=
  ((drainConductivity_salinity_law id ⟨none, none, [], [], []⟩
      [("Salinity", "35.0")]).1 ((toFloat? "35.0").get (by decide))
      (Option.some_get _).symm).1

/-- C4: an oxygen event with parsable temperature uses the context's
salinity in the Weiss formula: with no prior salinity it is flagged
`Derived_Salinity_assumed=True` and computed at S=0; with a recorded
salinity `s` it is computed at `s` and the flag is absent (provided the
incoming event does not already carry the flag key). -/
theorem drainOxygen_salinity_flag (logQ expQ : ℚ → ℚ) (baro : Option ℚ)
    (ctx : CrossCtx) (m : List (String × String)) (t : ℚ)
    (ht : toFloatOpt (dGet? m "Temperature") = some t)
    (hA : dGet? m "Derived_Salinity_assumed" = none) :
    (ctx.latestSalinity = none →
      dGet? (drainOxygen logQ expQ baro ctx m) "Derived_Salinity_assumed" =
        some "True" ∧
      dGet? (drainOxygen logQ expQ baro ctx m) "Derived_O2Sol_umolL" =
        some (fmt2 (scaleO2 (weiss logQ expQ t 0) baro))) ∧
    (∀ s, ctx.latestSalinity = some s →
      dGet? (drainOxygen logQ expQ baro ctx m) "Derived_Salinity_assumed" = none ∧
      dGet? (drainOxygen logQ expQ baro ctx m) "Derived_Salinity_psu" =
        some (fmt3 s) ∧
      dGet? (drainOxygen logQ expQ baro ctx m) "Derived_O2Sol_umolL" =
        some (fmt2 (scaleO2 (weiss logQ expQ t s) baro))) := by
  constructor
  · intro hsal
    constructor <;>
    · simp only [drainOxygen, ht, hsal, Option.getD_none]
      repeat' split
      all_goals simp [dGet?_dSet, hA]
  · intro s hsal
    refine ⟨?_, ?_, ?_⟩ <;>
    · simp only [drainOxygen, ht, hsal, Option.getD_some]
      repeat' split
      all_goals simp [dGet?_dSet, hA]

theorem drainOxygen_salinity_flag_witness :
    dGet? (drainOxygen id id none ⟨none, none, [], [], []⟩
        [("Temperature", "20.0")]) "Derived_Salinity_assumed" = some "True" :=
  ((drainOxygen_salinity_flag id id none ⟨none, none, [], [], []⟩
      [("Temperature", "20.0")] ((toFloat? "20.0").get (by decide))
      (Option.some_get _).symm (by decide)).1 rfl).1

/-- C5: a pressure event with parsable absolute pressure (kPa) carries
`Derived_SeaPressure_dbar` and `Derived_Depth_m` exactly when an air
baseline is stored for its sensor identity, and then both values equal
`(absolute − baseline) / 10` (the incoming event is assumed not to carry
the derived keys already, as holds for every decoder output). -/
theorem drainPressure_baseline_law (ctx : CrossCtx) (comPort : String)
    (m : List (String × String)) (p : ℚ)
    (hp : toFloatOpt (dGet? m "Pressure") = some p)
    (hA : dGet? m "Derived_SeaPressure_dbar" = none)
    (hB : dGet? m "Derived_Depth_m" = none) :
    (dGet? ctx.airKpaBySensor (pressureSensorId (strUpper comPort) m) = none →
      dGet? (drainPressure ctx comPort m).2 "Derived_SeaPressure_dbar" = none ∧
      dGet? (drainPressure ctx comPort m).2 "Derived_Depth_m" = none) ∧
    (∀ baseKpa,
      dGet? ctx.airKpaBySensor (pressureSensorId (strUpper comPort) m) =
        some baseKpa →
      dGet? (drainPressure ctx comPort m).2 "Derived_SeaPressure_dbar" =
        some (fmt3 ((p - baseKpa) / 10) ++ " dbar") ∧
      dGet? (drainPressure ctx comPort m).2 "Derived_Depth_m" =
        some (fmt3 ((p - baseKpa) / 10) ++ " m")) := by
  constructor
  · intro hbase
    constructor <;>
    · simp only [drainPressure, hp, hbase]
      repeat' split
      all_goals simp_all [dGet?_dSet, hA, hB]
  · intro baseKpa hbase
    constructor <;>
    · simp only [drainPressure, hp, hbase]
      repeat' split
      all_goals simp_all [dGet?_dSet, pressureToDbar]

theorem drainPressure_baseline_law_witness :
    dGet? (drainPressure ⟨none, none, [], [], [("4117_SN_1234", (101.3 : ℚ))]⟩
        "COM5" [("ProductNumber", "4117"), ("SerialNumber", "1234"),
          ("Pressure", "111.3")]).2 "Derived_SeaPressure_dbar" =
      some (fmt3 (((toFloat? "111.3").get (by decide) - (101.3 : ℚ)) / 10) ++ " dbar") :=
  ((drainPressure_baseline_law ⟨none, none, [], [], [("4117_SN_1234", (101.3 : ℚ))]⟩
      "COM5" [("ProductNumber", "4117"), ("SerialNumber", "1234"),
        ("Pressure", "111.3")] ((toFloat? "111.3").get (by decide))
      (Option.some_get _).symm rfl rfl).2 (101.3 : ℚ) rfl).1

/-- C10: the PSS-78 embedding is a total function that returns `none`
whenever the conductivity, the quotient `R`, or the corrected quotient `Rt`
is non-positive (the finiteness conjuncts of the source's guards are
vacuous in the exact-rational model), and a conductivity event whose PSS-78
evaluation yields `none` (with no streamed `Salinity`) leaves the context
unchanged and gains no `Derived_Salinity_psu` annotation — the drain pass
is not aborted. -/
theorem pss78_nonpositive_guard (sq : ℚ → ℚ) :
    (∀ C T P : ℚ, (C ≤ 0 ∨ pss78R C ≤ 0 ∨ pss78Rt C T P ≤ 0) →
      pss78 sq C T P = none) ∧
    (∀ (ctx : CrossCtx) (m : List (String × String)) (c t : ℚ),
      toFloatOpt (dGet? m "Salinity") = none →
      toFloatOpt (dGet? m "Conductivity") = some c →
      toFloatOpt (dGet? m "Temperature") = some t →
      pss78 sq c t (match ctx.latestPressure with
        | some p => pressureToDbar p
        | none => 0) = none →
      (drainConductivity sq ctx m).1 = ctx ∧
      dGet? (drainConductivity sq ctx m).2 "Derived_Salinity_psu" =
        dGet? m "Derived_Salinity_psu") := by
  constructor
  · intro C T P h
    unfold pss78
    split_ifs with g1 g2 g3 <;> try rfl
    rcases h with h | h | h
    · exact absurd h g1
    · exact absurd h g2
    · exact absurd h g3
  · intro ctx m c t hs hc ht hp
    cases hlp : ctx.latestPressure with
    | none =>
      rw [hlp] at hp
      refine ⟨?_, ?_⟩ <;> simp [drainConductivity, hs, hc, ht, hlp, hp, dGet?_dSet]
    | some p =>
      rw [hlp] at hp
      refine ⟨?_, ?_⟩ <;> simp [drainConductivity, hs, hc, ht, hlp, hp, dGet?_dSet]

theorem pss78_nonpositive_guard_witness :
    pss78 id (-1) 0 0 = none :=
  (pss78_nonpositive_guard id).1 (-1) 0 0 (Or.inl (by norm_num))
